import Mathlib

/-!
Shallow embedding of the NBASim playoff simulation engine
(src/server/src/simulation/services/simulation.service.ts).

JavaScript numbers are modelled as rationals (`ℚ`); optional fields
(`wins?: number`, `conference` possibly absent at runtime) as `Option`;
the global `Math.random()` source as an explicit function `rand : Nat → ℚ`
together with a draw counter that every stochastic operation threads
through and returns; `throw` as `Except.error` carrying the message.
-/

namespace NBASim

/-- JavaScript `b || d` for an optional boolean (`undefined` and `false`
are falsy). -/
def jsOrBool (b : Option Bool) (d : Bool) : Bool :=
  match b with
  | some true => true
  | _ => d

/-- JavaScript `s || d` for an optional string (`undefined` and `""` are
falsy). -/
def jsOrString (s : Option String) (d : String) : String :=
  match s with
  | some s => if s = "" then d else s
  | none => d

/-- JavaScript `n || d` for an optional number (`undefined` and `0` are
falsy). -/
def jsOrInt (n : Option Int) (d : Int) : Int :=
  match n with
  | some n => if n = 0 then d else n
  | none => d

/-- The fields of `TeamStatsDTO` consumed by the simulation engine.
`conference` is typed `string` in the DTO but may be absent at runtime
(the service guards `!stat.conference`), hence `Option String`;
`wins?`/`losses?` are optional in the DTO. -/
structure TeamStatsDTO where
  teamName : String
  conference : Option String
  offensiveRating : ℚ
  defensiveRating : ℚ
  threePointPercentage : ℚ
  wins : Option Int
  losses : Option Int
deriving DecidableEq, Repr, Inhabited

/-- `WeightingInput` from simulation-input.dto.ts. -/
structure WeightingInput where
  offensiveWeight : ℚ
  defensiveWeight : ℚ
  threePointWeight : ℚ
deriving DecidableEq, Repr, Inhabited

/-- `TeamSimulationResult` from simulation-result.dto.ts. -/
structure TeamSimulationResult where
  name : String
  weightedRating : ℚ
  wins : Option Int
  losses : Option Int
deriving DecidableEq, Repr, Inhabited

/-- `GameResult` from simulation-result.dto.ts. -/
structure GameResult where
  gameNumber : Nat
  winner : String
  homeTeam : Bool
deriving DecidableEq, Repr, Inhabited

/-- `SeriesResult` from simulation-result.dto.ts. -/
structure SeriesResult where
  team1 : TeamSimulationResult
  team2 : TeamSimulationResult
  winner : TeamSimulationResult
  team1Wins : Nat
  team2Wins : Nat
  games : List GameResult
deriving DecidableEq, Repr, Inhabited

/-- `RoundResult` from simulation-result.dto.ts. -/
structure RoundResult where
  round : Nat
  series : List SeriesResult
deriving DecidableEq, Repr, Inhabited

/-- `ConferenceResult` from simulation-result.dto.ts. -/
structure ConferenceResult where
  name : String
  rounds : List RoundResult
  champion : TeamSimulationResult
deriving DecidableEq, Repr, Inhabited

/-- The pure payload of a `SimulationResult` (id, season and date are
supplied by persistence and the caller, not computed by the engine). -/
structure SimulationOutcome where
  conferences : List ConferenceResult
  champion : TeamSimulationResult
  weighting : WeightingInput
deriving DecidableEq, Repr, Inhabited

/-- The simulation-relevant fields of `SimulationInput`
(simulation-input.dto.ts); all three are optional for the caller. -/
structure SimulationInputCore where
  weighting : Option WeightingInput
  useLuckFactor : Option Bool
  useHomeCourtAdvantage : Option Bool
deriving DecidableEq, Repr, Inhabited

/-- `calculateTeamRatings` (simulation.service.ts lines 172-185):
`weightedRating = off*offW + (1/def)*defW + 3pt*threeW`, record carried
through with `|| 0` defaults.  There is no validation and no error path:
the JS code divides unconditionally (for `defensiveRating = 0` JS yields
`Infinity`; in the ℚ model `1/0 = 0` — in both, the map returns normally). -/
def calculateTeamRatings (teamStats : List TeamStatsDTO) (weighting : WeightingInput) :
    List TeamSimulationResult :=
  teamStats.map fun stat =>
    let weightedRating := stat.offensiveRating * weighting.offensiveWeight +
      (1 / stat.defensiveRating) * weighting.defensiveWeight +
      stat.threePointPercentage * weighting.threePointWeight
    { name := stat.teamName
      weightedRating := weightedRating
      wins := some (jsOrInt stat.wins 0)
      losses := some (jsOrInt stat.losses 0) }

/-- Recursive worker for `splitTeamsByConference`: walks the
(team, stat) pairs in order; `stat.conference || 'Western'` selects the
bucket; a conference string other than `Eastern`/`Western` would make the
JS code call `.push` on `undefined` (a TypeError), modelled as an error. -/
def splitGo : List (TeamSimulationResult × TeamStatsDTO) →
    Except String (List TeamSimulationResult × List TeamSimulationResult)
  | [] => .ok ([], [])
  | (team, stat) :: rest =>
    let conference := jsOrString stat.conference "Western"
    if conference = "Eastern" then
      match splitGo rest with
      | .ok (e, w) => .ok (team :: e, w)
      | .error err => .error err
    else if conference = "Western" then
      match splitGo rest with
      | .ok (e, w) => .ok (e, team :: w)
      | .error err => .error err
    else
      .error "TypeError: cannot push to undefined conference bucket"

/-- `splitTeamsByConference` (simulation.service.ts lines 188-204): pairs
`teams[index]` with `teamStats[index]` and buckets by
`stat.conference || 'Western'` (missing conference falls back to Western
with only a logged warning). -/
def splitTeamsByConference (teams : List TeamSimulationResult) (teamStats : List TeamStatsDTO) :
    Except String (List TeamSimulationResult × List TeamSimulationResult) :=
  splitGo (teams.zip teamStats)

/-- `(t.wins ?? 0)` as used by the play-in sort comparator. -/
def winsD (t : TeamSimulationResult) : Int := t.wins.getD 0

/-- Insert one team into a list already sorted by descending `wins`,
before the first strictly-smaller element (so that, starting from the
head, earlier input elements precede equal-keyed later ones). -/
def insertTeamByWins (t : TeamSimulationResult) :
    List TeamSimulationResult → List TeamSimulationResult
  | [] => [t]
  | u :: rest =>
    if winsD u ≤ winsD t then t :: u :: rest
    else u :: insertTeamByWins t rest

/-- `teams.sort((a, b) => (b.wins ?? 0) - (a.wins ?? 0))` — JS
`Array.prototype.sort` is stable, so this is the stable sort by
descending `wins ?? 0`, here realised as a stable insertion sort. -/
def sortTeamsByWins : List TeamSimulationResult → List TeamSimulationResult
  | [] => []
  | t :: rest => insertTeamByWins t (sortTeamsByWins rest)

/-- `simulateGame` (simulation.service.ts lines 245-254): winner is
`team1` when the uniform draw is below
`team1.weightedRating / (sum of ratings)`, else `team2`.  No check on the
ratings is performed.  (With both ratings zero, JS computes `NaN` and the
comparison is false, as is `u < 0/0 = 0` in the ℚ model: both return
`team2`.) -/
def simulateGame (team1 team2 : TeamSimulationResult) (random : ℚ) : TeamSimulationResult :=
  let team1Chance := team1.weightedRating / (team1.weightedRating + team2.weightedRating)
  if random < team1Chance then team1 else team2

/-- `simulatePlayInTournament` (simulation.service.ts lines 207-242):
requires ≥ 10 teams, sorts by descending wins, plays seed7 v seed8,
seed9 v seed10, then (loser of game 1) v (winner of game 2); returns the
six untouched top seeds followed by the game-1 winner (7th seed) and the
game-3 winner (8th seed).  Consumes three draws. -/
def simulatePlayInTournament (teams : List TeamSimulationResult) (rand : Nat → ℚ) (k : Nat) :
    Except String (List TeamSimulationResult × Nat) :=
  if teams.length < 10 then
    .error "Not enough teams in conference for play-in tournament"
  else
    let sortedTeams := sortTeamsByWins teams
    let seed7 := sortedTeams.getD 6 default
    let seed8 := sortedTeams.getD 7 default
    let seed9 := sortedTeams.getD 8 default
    let seed10 := sortedTeams.getD 9 default
    let game1Winner := simulateGame seed7 seed8 (rand k)
    let game2Winner := simulateGame seed9 seed10 (rand (k + 1))
    let game3LoserGame1 := if game1Winner = seed7 then seed8 else seed7
    let game3Winner := simulateGame game3LoserGame1 game2Winner (rand (k + 2))
    .ok ([sortedTeams.getD 0 default, sortedTeams.getD 1 default, sortedTeams.getD 2 default,
          sortedTeams.getD 3 default, sortedTeams.getD 4 default, sortedTeams.getD 5 default,
          game1Winner, game3Winner], k + 3)

/-- `const team1HasHomeCourt = useHomeCourtAdvantage && [1,2,5,7].includes(gameNumber)`
(simulation.service.ts line 269). -/
def seriesTeam1Home (useHomeCourtAdvantage : Bool) (gameNumber : Nat) : Bool :=
  useHomeCourtAdvantage && decide (gameNumber ∈ ([1, 2, 5, 7] : List Nat))

/-- `const luckFactor = useLuckFactor ? (Math.random() * 0.04) - 0.02 : 0`
(line 270), with the draw passed explicitly. -/
def seriesLuckFactor (useLuckFactor : Bool) (draw : ℚ) : ℚ :=
  if useLuckFactor then draw * (4 / 100) - 2 / 100 else 0

/-- `team1EffectiveRating = team1.weightedRating + luckFactor + homeCourtAdvantage`
where `homeCourtAdvantage = team1HasHomeCourt ? 0.03 : 0` (lines 271-273). -/
def seriesTeam1Eff (team1 : TeamSimulationResult) (luckFactor : ℚ) (team1HasHomeCourt : Bool) : ℚ :=
  team1.weightedRating + luckFactor + (if team1HasHomeCourt then 3 / 100 else 0)

/-- `team2EffectiveRating = team2.weightedRating + luckFactor + (team1HasHomeCourt ? 0 : 0.03)`
(line 274).  Note the 0.03 term is gated only on `team1HasHomeCourt`, not
on `useHomeCourtAdvantage`. -/
def seriesTeam2Eff (team2 : TeamSimulationResult) (luckFactor : ℚ) (team1HasHomeCourt : Bool) : ℚ :=
  team2.weightedRating + luckFactor + (if team1HasHomeCourt then 0 else 3 / 100)

/-- The `while (team1Wins < 4 && team2Wins < 4)` loop of `simulateSeries`
(simulation.service.ts lines 263-302).  Per iteration: game number is
`w1 + w2 + 1`; the luck draw (if enabled) consumes one `rand` position and
the outcome draw one more; the winner is team1 iff the outcome draw is
below `eff1 / (eff1 + eff2)`; the game is appended to the log and the
winner's count incremented. -/
def simulateSeriesLoop (team1 team2 : TeamSimulationResult)
    (useLuckFactor useHomeCourtAdvantage : Bool) (rand : Nat → ℚ)
    (team1Wins team2Wins : Nat) (games : List GameResult) (k : Nat) :
    SeriesResult × Nat :=
  if h : team1Wins < 4 ∧ team2Wins < 4 then
    let gameNumber := team1Wins + team2Wins + 1
    let team1HasHomeCourt := seriesTeam1Home useHomeCourtAdvantage gameNumber
    let luckFactor := seriesLuckFactor useLuckFactor (rand k)
    let k1 := if useLuckFactor then k + 1 else k
    let team1EffectiveRating := seriesTeam1Eff team1 luckFactor team1HasHomeCourt
    let team2EffectiveRating := seriesTeam2Eff team2 luckFactor team1HasHomeCourt
    let team1Chance := team1EffectiveRating / (team1EffectiveRating + team2EffectiveRating)
    let team1Won := rand k1 < team1Chance
    let winnerName := if team1Won then team1.name else team2.name
    let games' := games ++
      [{ gameNumber := gameNumber, winner := winnerName, homeTeam := team1HasHomeCourt }]
    if team1Won then
      simulateSeriesLoop team1 team2 useLuckFactor useHomeCourtAdvantage rand
        (team1Wins + 1) team2Wins games' (k1 + 1)
    else
      simulateSeriesLoop team1 team2 useLuckFactor useHomeCourtAdvantage rand
        team1Wins (team2Wins + 1) games' (k1 + 1)
  else
    ({ team1 := team1, team2 := team2
       winner := if team1Wins > team2Wins then team1 else team2
       team1Wins := team1Wins, team2Wins := team2Wins, games := games }, k)
termination_by (4 - team1Wins) + (4 - team2Wins)
decreasing_by
  · omega
  · omega

/-- `simulateSeries` (simulation.service.ts lines 257-302): run the
best-of-seven loop from 0-0 with an empty game log. -/
def simulateSeries (team1 team2 : TeamSimulationResult)
    (useLuckFactor useHomeCourtAdvantage : Bool) (rand : Nat → ℚ) (k : Nat) :
    SeriesResult × Nat :=
  simulateSeriesLoop team1 team2 useLuckFactor useHomeCourtAdvantage rand 0 0 [] k

/-- One pass of the pairing loop inside `simulateConferencePlayoffs`
(simulation.service.ts lines 325-336): `for (i = 0; i < n; i += 2)` takes
the teams two at a time in current order, simulates a series per pair,
and collects the series results and their winners; an unpaired trailing
team (`team2` undefined) throws. -/
def pairTeamsRound (useLuckFactor useHomeCourtAdvantage : Bool) (rand : Nat → ℚ) :
    List TeamSimulationResult → Nat →
    Except String (List SeriesResult × List TeamSimulationResult × Nat)
  | [], k => .ok ([], [], k)
  | [_], _ => .error "Error pairing teams for conference playoffs round"
  | team1 :: team2 :: rest, k =>
    let res := simulateSeries team1 team2 useLuckFactor useHomeCourtAdvantage rand k
    match pairTeamsRound useLuckFactor useHomeCourtAdvantage rand rest res.2 with
    | .ok (series, winners, k'') => .ok (res.1 :: series, res.1.winner :: winners, k'')
    | .error e => .error e

/-- The `for (round = 1; round <= 3; round++)` loop of
`simulateConferencePlayoffs` (lines 320-340), written with an explicit
count of rounds left: each round pairs the remaining teams, records a
`RoundResult`, and passes the winners on. -/
def simulateRoundsFrom (useLuckFactor useHomeCourtAdvantage : Bool) (rand : Nat → ℚ) :
    Nat → Nat → List TeamSimulationResult → Nat →
    Except String (List RoundResult × List TeamSimulationResult × Nat)
  | 0, _, remainingTeams, k => .ok ([], remainingTeams, k)
  | n + 1, round, remainingTeams, k =>
    match pairTeamsRound useLuckFactor useHomeCourtAdvantage rand remainingTeams k with
    | .ok (series, winners, k') =>
      match simulateRoundsFrom useLuckFactor useHomeCourtAdvantage rand n (round + 1) winners k' with
      | .ok (rounds, finalTeams, k'') =>
        .ok ({ round := round, series := series } :: rounds, finalTeams, k'')
      | .error e => .error e
    | .error e => .error e

/-- `simulateConferencePlayoffs` (simulation.service.ts lines 305-354):
requires ≥ 8 teams, runs 3 rounds of pairing, and returns the rounds
together with the first remaining team as conference champion
(`remainingTeams[0]`, erroring when absent). -/
def simulateConferencePlayoffs (conferenceName : String) (teams : List TeamSimulationResult)
    (useLuckFactor useHomeCourtAdvantage : Bool) (rand : Nat → ℚ) (k : Nat) :
    Except String (ConferenceResult × Nat) :=
  if teams.length < 8 then
    .error "Insufficient teams to simulate conference playoffs"
  else
    match simulateRoundsFrom useLuckFactor useHomeCourtAdvantage rand 3 1 teams k with
    | .ok (rounds, remainingTeams, k') =>
      match remainingTeams with
      | [] => .error "Could not determine conference champion"
      | champion :: _ => .ok ({ name := conferenceName, rounds := rounds, champion := champion }, k')
    | .error e => .error e

/-- `simulateFinals` (simulation.service.ts lines 357-369): one series
between the two conference champions; the winner is the overall champion. -/
def simulateFinals (easternChampion westernChampion : TeamSimulationResult)
    (useLuckFactor useHomeCourtAdvantage : Bool) (rand : Nat → ℚ) (k : Nat) :
    TeamSimulationResult × Nat :=
  let res := simulateSeries easternChampion westernChampion useLuckFactor useHomeCourtAdvantage rand k
  (res.1.winner, res.2)

/-- The default weighting used by `runSimulation` when the caller
supplies none (simulation.service.ts lines 70-74). -/
def defaultWeighting : WeightingInput :=
  { offensiveWeight := 30 / 100, defensiveWeight := 50 / 100, threePointWeight := 20 / 100 }

/-- The pure computation performed by `runSimulation` (simulation.service.ts
lines 66-129) between fetching the stats and persisting the result:
default the weighting, require ≥ 16 teams, rate, split by conference,
play-in both conferences, both conference playoffs, then the finals.
The flags are passed as `input.useLuckFactor || false` and
`input.useHomeCourtAdvantage || true` (lines 99-107).  A `WeightingInput`
object is truthy in JS, so `input.weighting || default` is `getD`. -/
def runSimulationCore (input : SimulationInputCore) (teamStats : List TeamStatsDTO)
    (rand : Nat → ℚ) : Except String SimulationOutcome :=
  let weighting := input.weighting.getD defaultWeighting
  if teamStats.length < 16 then
    .error "Insufficient team data to run simulation"
  else
    let teamsWithRatings := calculateTeamRatings teamStats weighting
    match splitTeamsByConference teamsWithRatings teamStats with
    | .error e => .error e
    | .ok (easternTeams, westernTeams) =>
      match simulatePlayInTournament easternTeams rand 0 with
      | .error e => .error e
      | .ok (easternPlayoffTeams, k1) =>
        match simulatePlayInTournament westernTeams rand k1 with
        | .error e => .error e
        | .ok (westernPlayoffTeams, k2) =>
          match simulateConferencePlayoffs "Eastern" easternPlayoffTeams
              (jsOrBool input.useLuckFactor false) (jsOrBool input.useHomeCourtAdvantage true)
              rand k2 with
          | .error e => .error e
          | .ok (easternResult, k3) =>
            match simulateConferencePlayoffs "Western" westernPlayoffTeams
                (jsOrBool input.useLuckFactor false) (jsOrBool input.useHomeCourtAdvantage true)
                rand k3 with
            | .error e => .error e
            | .ok (westernResult, k4) =>
              let finals := simulateFinals easternResult.champion westernResult.champion
                (jsOrBool input.useLuckFactor false) (jsOrBool input.useHomeCourtAdvantage true)
                rand k4
              .ok { conferences := [easternResult, westernResult]
                    champion := finals.1
                    weighting := weighting }

/-- Extract the seed list from a play-in result (`[]` on error). -/
def playInSeeds (r : Except String (List TeamSimulationResult × Nat)) :
    List TeamSimulationResult :=
  match r with
  | .ok (seeds, _) => seeds
  | .error _ => []

/-- Extract the rounds from a conference-playoffs result (`[]` on error). -/
def confRounds (r : Except String (ConferenceResult × Nat)) : List RoundResult :=
  match r with
  | .ok (cr, _) => cr.rounds
  | .error _ => []

/-- Extract the champion from a conference-playoffs result. -/
def confChampion (r : Except String (ConferenceResult × Nat)) : TeamSimulationResult :=
  match r with
  | .ok (cr, _) => cr.champion
  | .error _ => default

/-- The `j`-th series of the `i`-th recorded round. -/
def seriesAt (rounds : List RoundResult) (i j : Nat) : SeriesResult :=
  (rounds.getD i default).series.getD j default

/-! ## Concrete inputs used by counterexamples and witnesses -/

/-- A stat line with `defensiveRating = 0` (C3). -/
def zeroDefStat : TeamStatsDTO :=
  { teamName := "Z", conference := some "Eastern", offensiveRating := 1,
    defensiveRating := 0, threePointPercentage := 1 / 2, wins := some 0, losses := some 0 }

/-- A well-formed stat line (C6 witness). -/
def okStat : TeamStatsDTO :=
  { teamName := "X", conference := some "Eastern", offensiveRating := 110,
    defensiveRating := 105, threePointPercentage := 37 / 100, wins := some 50, losses := some 32 }

/-- A rated team with weighted rating 0 (C8). -/
def zeroTeamA : TeamSimulationResult :=
  { name := "ZA", weightedRating := 0, wins := some 0, losses := some 0 }

/-- A second rated team with weighted rating 0 (C8). -/
def zeroTeamB : TeamSimulationResult :=
  { name := "ZB", weightedRating := 0, wins := some 0, losses := some 0 }

/-- A stat line with no conference recorded (C9). -/
def noConfStat : TeamStatsDTO :=
  { teamName := "NC", conference := none, offensiveRating := 1, defensiveRating := 1,
    threePointPercentage := 0, wins := some 0, losses := some 0 }

/-- The rated team corresponding to `noConfStat` (C9). -/
def noConfTeam : TeamSimulationResult :=
  { name := "NC", weightedRating := 1, wins := some 0, losses := some 0 }

/-- Two equal-strength rated teams (C2). -/
def halfTeamA : TeamSimulationResult :=
  { name := "HA", weightedRating := 1 / 2, wins := some 0, losses := some 0 }

/-- Second equal-strength rated team (C2). -/
def halfTeamB : TeamSimulationResult :=
  { name := "HB", weightedRating := 1 / 2, wins := some 0, losses := some 0 }

/-- A team with the best weighted rating of its conference but the worst
record (C4). -/
def topRatedTeam : TeamSimulationResult :=
  { name := "R", weightedRating := 100, wins := some 0, losses := some 40 }

/-- A 10-team conference in which `topRatedTeam` has by far the highest
weighted rating but the fewest wins; every other team has rating 1 and
distinct win counts 30 down to 22 (C4, C7). -/
def cexRatingTeams : List TeamSimulationResult :=
  [topRatedTeam,
   { name := "A", weightedRating := 1, wins := some 30, losses := some 0 },
   { name := "B", weightedRating := 1, wins := some 29, losses := some 0 },
   { name := "C", weightedRating := 1, wins := some 28, losses := some 0 },
   { name := "D", weightedRating := 1, wins := some 27, losses := some 0 },
   { name := "E", weightedRating := 1, wins := some 26, losses := some 0 },
   { name := "F", weightedRating := 1, wins := some 25, losses := some 0 },
   { name := "G", weightedRating := 1, wins := some 24, losses := some 0 },
   { name := "H", weightedRating := 1, wins := some 23, losses := some 0 },
   { name := "I", weightedRating := 1, wins := some 22, losses := some 0 }]

/-- Eight equal-rated bracket teams, named by seed position (C1). -/
def cexBracketTeams : List TeamSimulationResult :=
  [{ name := "T1", weightedRating := 1, wins := some 8, losses := some 0 },
   { name := "T2", weightedRating := 1, wins := some 7, losses := some 0 },
   { name := "T3", weightedRating := 1, wins := some 6, losses := some 0 },
   { name := "T4", weightedRating := 1, wins := some 5, losses := some 0 },
   { name := "T5", weightedRating := 1, wins := some 4, losses := some 0 },
   { name := "T6", weightedRating := 1, wins := some 3, losses := some 0 },
   { name := "T7", weightedRating := 1, wins := some 2, losses := some 0 },
   { name := "T8", weightedRating := 1, wins := some 1, losses := some 0 }]

/-! ## Helper lemmas about the series loop -/

/-- One-step unfolding of the series loop when neither side has 4 wins. -/
theorem simulateSeriesLoop_step (team1 team2 : TeamSimulationResult)
    (luck hca : Bool) (rand : Nat → ℚ) (w1 w2 : Nat) (games : List GameResult) (k : Nat)
    (hc : w1 < 4 ∧ w2 < 4) :
    simulateSeriesLoop team1 team2 luck hca rand w1 w2 games k =
      (let gameNumber := w1 + w2 + 1
       let team1HasHomeCourt := seriesTeam1Home hca gameNumber
       let luckFactor := seriesLuckFactor luck (rand k)
       let k1 := if luck then k + 1 else k
       let team1EffectiveRating := seriesTeam1Eff team1 luckFactor team1HasHomeCourt
       let team2EffectiveRating := seriesTeam2Eff team2 luckFactor team1HasHomeCourt
       let team1Chance := team1EffectiveRating / (team1EffectiveRating + team2EffectiveRating)
       let team1Won := rand k1 < team1Chance
       let winnerName := if team1Won then team1.name else team2.name
       let games' := games ++
         [{ gameNumber := gameNumber, winner := winnerName, homeTeam := team1HasHomeCourt }]
       if team1Won then
         simulateSeriesLoop team1 team2 luck hca rand (w1 + 1) w2 games' (k1 + 1)
       else
         simulateSeriesLoop team1 team2 luck hca rand w1 (w2 + 1) games' (k1 + 1)) := by
  rw [simulateSeriesLoop, dif_pos hc]

/-- Unfolding of the series loop when a side has reached 4 wins. -/
theorem simulateSeriesLoop_exit (team1 team2 : TeamSimulationResult)
    (luck hca : Bool) (rand : Nat → ℚ) (w1 w2 : Nat) (games : List GameResult) (k : Nat)
    (hc : ¬(w1 < 4 ∧ w2 < 4)) :
    simulateSeriesLoop team1 team2 luck hca rand w1 w2 games k =
      ({ team1 := team1, team2 := team2
         winner := if w1 > w2 then team1 else team2
         team1Wins := w1, team2Wins := w2, games := games }, k) := by
  rw [simulateSeriesLoop, dif_neg hc]

/-- Invariant of the series loop: from any reachable state (both win
counts ≤ 4, not both 4, game log length equal to total wins) the loop
ends with one side at exactly 4 wins, the other at ≤ 3, a game log of
length `team1Wins + team2Wins`, the winner decided by win-count
comparison, and the competing teams carried through. -/
theorem simulateSeriesLoop_spec (n : Nat) : ∀ (team1 team2 : TeamSimulationResult)
    (luck hca : Bool) (rand : Nat → ℚ) (w1 w2 : Nat) (games : List GameResult) (k : Nat),
    (4 - w1) + (4 - w2) ≤ n → w1 ≤ 4 → w2 ≤ 4 → ¬(w1 = 4 ∧ w2 = 4) →
    games.length = w1 + w2 →
    (simulateSeriesLoop team1 team2 luck hca rand w1 w2 games k).1.team1 = team1 ∧
    (simulateSeriesLoop team1 team2 luck hca rand w1 w2 games k).1.team2 = team2 ∧
    ((simulateSeriesLoop team1 team2 luck hca rand w1 w2 games k).1.team1Wins = 4 ∧
       (simulateSeriesLoop team1 team2 luck hca rand w1 w2 games k).1.team2Wins ≤ 3 ∨
     (simulateSeriesLoop team1 team2 luck hca rand w1 w2 games k).1.team2Wins = 4 ∧
       (simulateSeriesLoop team1 team2 luck hca rand w1 w2 games k).1.team1Wins ≤ 3) ∧
    (simulateSeriesLoop team1 team2 luck hca rand w1 w2 games k).1.games.length =
      (simulateSeriesLoop team1 team2 luck hca rand w1 w2 games k).1.team1Wins +
      (simulateSeriesLoop team1 team2 luck hca rand w1 w2 games k).1.team2Wins ∧
    (simulateSeriesLoop team1 team2 luck hca rand w1 w2 games k).1.winner =
      (if (simulateSeriesLoop team1 team2 luck hca rand w1 w2 games k).1.team1Wins >
          (simulateSeriesLoop team1 team2 luck hca rand w1 w2 games k).1.team2Wins
       then team1 else team2) := by
  induction n with
  | zero =>
    intro team1 team2 luck hca rand w1 w2 games k hn hw1 hw2 hne hg
    omega
  | succ n ih =>
    intro team1 team2 luck hca rand w1 w2 games k hn hw1 hw2 hne hg
    by_cases hc : w1 < 4 ∧ w2 < 4
    · rw [simulateSeriesLoop_step team1 team2 luck hca rand w1 w2 games k hc]
      dsimp only
      split <;> split
      all_goals first
        | exact ih team1 team2 luck hca rand (w1 + 1) w2 _ _ (by omega) (by omega) (by omega)
            (by omega) (by simp [hg]; omega)
        | exact ih team1 team2 luck hca rand w1 (w2 + 1) _ _ (by omega) (by omega) (by omega)
            (by omega) (by simp [hg]; omega)
    · rw [simulateSeriesLoop_exit team1 team2 luck hca rand w1 w2 games k hc]
      refine ⟨rfl, rfl, by dsimp only; omega, by simpa using hg, rfl⟩

/-- `simulateSeries` keeps its first argument as `team1` of the result. -/
theorem simulateSeries_team1 (team1 team2 : TeamSimulationResult) (luck hca : Bool)
    (rand : Nat → ℚ) (k : Nat) :
    (simulateSeries team1 team2 luck hca rand k).1.team1 = team1 :=
  (simulateSeriesLoop_spec 8 team1 team2 luck hca rand 0 0 [] k (by omega) (by omega)
    (by omega) (by omega) rfl).1

/-- `simulateSeries` keeps its second argument as `team2` of the result. -/
theorem simulateSeries_team2 (team1 team2 : TeamSimulationResult) (luck hca : Bool)
    (rand : Nat → ℚ) (k : Nat) :
    (simulateSeries team1 team2 luck hca rand k).1.team2 = team2 :=
  (simulateSeriesLoop_spec 8 team1 team2 luck hca rand 0 0 [] k (by omega) (by omega)
    (by omega) (by omega) rfl).2.1


/-- C5: every simulated best-of-seven series ends with a game log of
length between 4 and 7, the winner on exactly 4 wins and the loser on at
most 3. -/
theorem series_termination_bound (team1 team2 : TeamSimulationResult) (luck hca : Bool)
    (rand : Nat → ℚ) (k : Nat) :
    4 ≤ (simulateSeries team1 team2 luck hca rand k).1.games.length ∧
    (simulateSeries team1 team2 luck hca rand k).1.games.length ≤ 7 ∧
    ((simulateSeries team1 team2 luck hca rand k).1.winner = team1 ∧
       (simulateSeries team1 team2 luck hca rand k).1.team1Wins = 4 ∧
       (simulateSeries team1 team2 luck hca rand k).1.team2Wins ≤ 3 ∨
     (simulateSeries team1 team2 luck hca rand k).1.winner = team2 ∧
       (simulateSeries team1 team2 luck hca rand k).1.team2Wins = 4 ∧
       (simulateSeries team1 team2 luck hca rand k).1.team1Wins ≤ 3) := by
  simp only [simulateSeries]
  obtain ⟨h1, h2, hwins, hlen, hwin⟩ :=
    simulateSeriesLoop_spec 8 team1 team2 luck hca rand 0 0 [] k (by omega) (by omega)
      (by omega) (by omega) rfl
  rcases hwins with ⟨ha, hb⟩ | ⟨ha, hb⟩
  · refine ⟨by omega, by omega, Or.inl ⟨?_, ha, hb⟩⟩
    rw [hwin, if_pos (by omega)]
  · refine ⟨by omega, by omega, Or.inr ⟨?_, ha, hb⟩⟩
    rw [hwin, if_neg (by omega)]

/-- C6: the weighted rating of the i-th rated team is exactly
`off*offW + (1/def)*defW + 3pt*threeW` for the i-th stat line, with the
supplied weights used as given. -/
theorem weighted_rating_formula (stats : List TeamStatsDTO) (w : WeightingInput) (i : Nat)
    (hi : i < stats.length)
    (hdr : (stats.getD i default).defensiveRating ≠ 0) :
    ((calculateTeamRatings stats w).getD i default).weightedRating =
      (stats.getD i default).offensiveRating * w.offensiveWeight +
      (1 / (stats.getD i default).defensiveRating) * w.defensiveWeight +
      (stats.getD i default).threePointPercentage * w.threePointWeight := by
  induction stats generalizing i with
  | nil => simp at hi
  | cons s rest ih =>
    cases i with
    | zero => simp [calculateTeamRatings]
    | succ j =>
      have hj : j < rest.length := by simpa using hi
      have hdr' : (rest.getD j default).defensiveRating ≠ 0 := by simpa using hdr
      simpa [calculateTeamRatings] using ih j hj hdr'

/-- C6 witness: the formula at a concrete stat line and the default
weighting. -/
theorem weighted_rating_formula_witness :
    (0 < [okStat].length ∧ ([okStat].getD 0 default).defensiveRating ≠ 0) ∧
    ((calculateTeamRatings [okStat] defaultWeighting).getD 0 default).weightedRating =
      ([okStat].getD 0 default).offensiveRating * defaultWeighting.offensiveWeight +
      (1 / ([okStat].getD 0 default).defensiveRating) * defaultWeighting.defensiveWeight +
      ([okStat].getD 0 default).threePointPercentage * defaultWeighting.threePointWeight :=
  ⟨⟨by decide, by decide⟩,
    weighted_rating_formula [okStat] defaultWeighting 0 (by decide) (by decide)⟩

/-- C3 counterexample: with `defensiveRating = 0` the rating computation
does not fail — it returns a rated team (in this ℚ model `1/0 = 0`, so
the rating is `1*0.3 + 0*0.5 + 0.5*0.2 = 2/5`; the JS code returns
`Infinity` instead — in both, no error of any kind is raised). -/
theorem zero_defense_returns_value :
    calculateTeamRatings [zeroDefStat] defaultWeighting =
      [{ name := "Z", weightedRating := 2 / 5, wins := some 0, losses := some 0 }] := by
  simp [calculateTeamRatings, zeroDefStat, defaultWeighting, jsOrInt]
  norm_num

/-- C3 amended: `calculateTeamRatings` has no error path at all — it
returns exactly one rated team per input stat line, for every input. -/
theorem calculateTeamRatings_total (stats : List TeamStatsDTO) (w : WeightingInput) :
    (calculateTeamRatings stats w).length = stats.length := by
  simp [calculateTeamRatings]

/-- C8 counterexample: with both effective ratings 0 (sum ≤ 0) a single
game still resolves to a winner (team2) instead of failing. -/
theorem zero_sum_game_returns_winner :
    zeroTeamA.weightedRating + zeroTeamB.weightedRating ≤ 0 ∧
    simulateGame zeroTeamA zeroTeamB (1 / 2) = zeroTeamB := by
  refine ⟨by norm_num [zeroTeamA, zeroTeamB], ?_⟩
  simp [simulateGame, zeroTeamA, zeroTeamB]

/-- C8 amended: `simulateGame` performs no rating check and always
returns one of the two teams. -/
theorem simulateGame_total (team1 team2 : TeamSimulationResult) (u : ℚ) :
    simulateGame team1 team2 u = team1 ∨ simulateGame team1 team2 u = team2 := by
  by_cases h : u < team1.weightedRating / (team1.weightedRating + team2.weightedRating)
  · exact Or.inl (by simp [simulateGame, h])
  · exact Or.inr (by simp [simulateGame, h])

/-- C9 counterexample: a stat line with no conference does not make the
split fail — the team is filed under Western. -/
theorem missing_conference_not_an_error :
    splitTeamsByConference [noConfTeam] [noConfStat] = .ok ([], [noConfTeam]) := rfl

/-- C9 amended: a team whose stat line has no conference is appended to
the Western bucket (never an error from that team). -/
theorem missing_conference_goes_western (team : TeamSimulationResult) (stat : TeamStatsDTO)
    (teams : List TeamSimulationResult) (stats : List TeamStatsDTO)
    (h : stat.conference = none) :
    splitTeamsByConference (team :: teams) (stat :: stats) =
      (match splitTeamsByConference teams stats with
       | .ok (e, w) => .ok (e, team :: w)
       | .error err => .error err) := by
  simp [splitTeamsByConference, splitGo, jsOrString, h, List.zip]

/-- C9 amended witness at a concrete missing-conference stat line. -/
theorem missing_conference_goes_western_witness :
    noConfStat.conference = none ∧
    splitTeamsByConference [noConfTeam] [noConfStat] =
      (match splitTeamsByConference ([] : List TeamSimulationResult) ([] : List TeamStatsDTO) with
       | .ok (e, w) => .ok (e, noConfTeam :: w)
       | .error err => .error err) :=
  ⟨rfl, missing_conference_goes_western noConfTeam noConfStat [] [] rfl⟩

/-- C10: `runSimulation` combines the caller's flag as
`useHomeCourtAdvantage || true`, so the flag value never matters: two
runs differing only in that flag and reading the same draws coincide. -/
theorem hca_flag_ignored (wt : Option WeightingInput) (luck : Option Bool)
    (hca1 hca2 : Option Bool) (stats : List TeamStatsDTO) (rand : Nat → ℚ) :
    runSimulationCore ⟨wt, luck, hca1⟩ stats rand =
      runSimulationCore ⟨wt, luck, hca2⟩ stats rand := by
  have h : ∀ b : Option Bool, jsOrBool b true = true := by
    intro b
    rcases b with _ | b
    · rfl
    · cases b <;> rfl
  simp only [runSimulationCore, h]


theorem insertTeamByWins_length (t : TeamSimulationResult) (l : List TeamSimulationResult) :
    (insertTeamByWins t l).length = l.length + 1 := by
  induction l with
  | nil => rfl
  | cons u rest ih =>
    simp only [insertTeamByWins]
    split <;> simp [ih]

theorem sortTeamsByWins_length (l : List TeamSimulationResult) :
    (sortTeamsByWins l).length = l.length := by
  induction l with
  | nil => rfl
  | cons t rest ih => simp [sortTeamsByWins, insertTeamByWins_length, ih]

theorem mem_insertTeamByWins (x t : TeamSimulationResult) (l : List TeamSimulationResult) :
    x ∈ insertTeamByWins t l ↔ x = t ∨ x ∈ l := by
  induction l with
  | nil => simp [insertTeamByWins]
  | cons u rest ih =>
    simp only [insertTeamByWins]
    split
    · simp [or_comm, or_assoc, or_left_comm]
    · simp [ih]
      tauto

theorem pairwise_insertTeamByWins (t : TeamSimulationResult) (l : List TeamSimulationResult)
    (hl : List.Pairwise (fun a b => winsD b ≤ winsD a) l) :
    List.Pairwise (fun a b => winsD b ≤ winsD a) (insertTeamByWins t l) := by
  induction l with
  | nil => simp [insertTeamByWins]
  | cons u rest ih =>
    rw [List.pairwise_cons] at hl
    simp only [insertTeamByWins]
    split
    · next hle =>
      rw [List.pairwise_cons]
      constructor
      · intro x hx
        rcases List.mem_cons.mp hx with hxu | hxr
        · exact hxu ▸ hle
        · exact le_trans (hl.1 x hxr) hle
      · exact List.pairwise_cons.mpr hl
    · next hgt =>
      rw [List.pairwise_cons]
      constructor
      · intro x hx
        rcases (mem_insertTeamByWins x t rest).mp hx with hxt | hxr
        · subst hxt
          omega
        · exact hl.1 x hxr
      · exact ih hl.2

theorem sortTeamsByWins_sorted (l : List TeamSimulationResult) :
    List.Pairwise (fun a b => winsD b ≤ winsD a) (sortTeamsByWins l) := by
  induction l with
  | nil => simp [sortTeamsByWins]
  | cons t rest ih => exact pairwise_insertTeamByWins t (sortTeamsByWins rest) ih

theorem take_six_of_ge (l : List TeamSimulationResult) (h : 6 ≤ l.length) :
    l.take 6 = [l.getD 0 default, l.getD 1 default, l.getD 2 default,
                l.getD 3 default, l.getD 4 default, l.getD 5 default] := by
  match l, h with
  | a :: b :: c :: d :: e :: f :: rest, _ => simp



theorem simulateGame_cases (team1 team2 : TeamSimulationResult) (u : ℚ) :
    simulateGame team1 team2 u = team1 ∨ simulateGame team1 team2 u = team2 := by
  by_cases h : u < team1.weightedRating / (team1.weightedRating + team2.weightedRating)
  · exact Or.inl (by simp [simulateGame, h])
  · exact Or.inr (by simp [simulateGame, h])

/-- C7: with at least 10 teams the play-in returns seeds 1-6 of the
wins-sorted order unchanged, then the winner of game 1 (sorted seeds 7v8)
as 7th seed, then the winner of game 3 (game-1 loser v winner of game 2,
which is sorted seeds 9v10) as 8th seed, consuming three draws. -/
theorem playin_structure (teams : List TeamSimulationResult) (rand : Nat → ℚ) (k : Nat)
    (h : 10 ≤ teams.length) :
    simulatePlayInTournament teams rand k =
      .ok ((sortTeamsByWins teams).take 6 ++
        [simulateGame ((sortTeamsByWins teams).getD 6 default)
           ((sortTeamsByWins teams).getD 7 default) (rand k),
         simulateGame
           (if simulateGame ((sortTeamsByWins teams).getD 6 default)
                 ((sortTeamsByWins teams).getD 7 default) (rand k) =
               (sortTeamsByWins teams).getD 6 default
            then (sortTeamsByWins teams).getD 7 default
            else (sortTeamsByWins teams).getD 6 default)
           (simulateGame ((sortTeamsByWins teams).getD 8 default)
              ((sortTeamsByWins teams).getD 9 default) (rand (k + 1)))
           (rand (k + 2))], k + 3) := by
  have hlen : 6 ≤ (sortTeamsByWins teams).length := by
    rw [sortTeamsByWins_length]
    omega
  rw [simulatePlayInTournament, if_neg (by omega), take_six_of_ge _ hlen]
  rfl

/-- C7 witness at a concrete 10-team conference. -/
theorem playin_structure_witness :
    10 ≤ cexRatingTeams.length ∧
    simulatePlayInTournament cexRatingTeams (fun _ => 1 / 2) 0 =
      .ok ((sortTeamsByWins cexRatingTeams).take 6 ++
        [simulateGame ((sortTeamsByWins cexRatingTeams).getD 6 default)
           ((sortTeamsByWins cexRatingTeams).getD 7 default) ((fun _ => (1 : ℚ) / 2) 0),
         simulateGame
           (if simulateGame ((sortTeamsByWins cexRatingTeams).getD 6 default)
                 ((sortTeamsByWins cexRatingTeams).getD 7 default) ((fun _ => (1 : ℚ) / 2) 0) =
               (sortTeamsByWins cexRatingTeams).getD 6 default
            then (sortTeamsByWins cexRatingTeams).getD 7 default
            else (sortTeamsByWins cexRatingTeams).getD 6 default)
           (simulateGame ((sortTeamsByWins cexRatingTeams).getD 8 default)
              ((sortTeamsByWins cexRatingTeams).getD 9 default) ((fun _ => (1 : ℚ) / 2) 1))
           ((fun _ => (1 : ℚ) / 2) 2)], 0 + 3) :=
  ⟨by decide, playin_structure cexRatingTeams (fun _ => 1 / 2) 0 (by decide)⟩



/-- C4 amended: the play-in orders the conference by **descending wins**
(`wins ?? 0`), not weighted rating: seeds 1-6 are the top six of that
wins-sorted order, the 7th seed comes from sorted positions 7-8, and the
8th seed from sorted positions 7-10. -/
theorem playin_seeding_by_wins (teams : List TeamSimulationResult) (rand : Nat → ℚ) (k : Nat)
    (h : 10 ≤ teams.length) :
    List.Pairwise (fun a b => winsD b ≤ winsD a) (sortTeamsByWins teams) ∧
    (playInSeeds (simulatePlayInTournament teams rand k)).take 6 =
      (sortTeamsByWins teams).take 6 ∧
    (playInSeeds (simulatePlayInTournament teams rand k)).getD 6 default ∈
      [(sortTeamsByWins teams).getD 6 default, (sortTeamsByWins teams).getD 7 default] ∧
    (playInSeeds (simulatePlayInTournament teams rand k)).getD 7 default ∈
      [(sortTeamsByWins teams).getD 6 default, (sortTeamsByWins teams).getD 7 default,
       (sortTeamsByWins teams).getD 8 default, (sortTeamsByWins teams).getD 9 default] := by
  have hlen : 6 ≤ (sortTeamsByWins teams).length := by
    rw [sortTeamsByWins_length]
    omega
  rw [simulatePlayInTournament, if_neg (by omega)]
  refine ⟨sortTeamsByWins_sorted teams, ?_, ?_, ?_⟩
  · rw [take_six_of_ge _ hlen]
    simp [playInSeeds]
  · simp only [playInSeeds, List.getD_cons_succ, List.getD_cons_zero]
    rcases simulateGame_cases ((sortTeamsByWins teams).getD 6 default)
        ((sortTeamsByWins teams).getD 7 default) (rand k) with h1 | h1 <;> rw [h1] <;> simp
  · simp only [playInSeeds, List.getD_cons_succ, List.getD_cons_zero]
    rcases simulateGame_cases
        (if simulateGame ((sortTeamsByWins teams).getD 6 default)
              ((sortTeamsByWins teams).getD 7 default) (rand k) =
            (sortTeamsByWins teams).getD 6 default
         then (sortTeamsByWins teams).getD 7 default
         else (sortTeamsByWins teams).getD 6 default)
        (simulateGame ((sortTeamsByWins teams).getD 8 default)
           ((sortTeamsByWins teams).getD 9 default) (rand (k + 1))) (rand (k + 2)) with
      h3 | h3
    · rw [h3]
      split <;> simp
    · rw [h3]
      rcases simulateGame_cases ((sortTeamsByWins teams).getD 8 default)
          ((sortTeamsByWins teams).getD 9 default) (rand (k + 1)) with h2 | h2 <;>
        rw [h2] <;> simp



/-- C4 amended witness at a concrete 10-team conference. -/
theorem playin_seeding_by_wins_witness :
    10 ≤ cexRatingTeams.length ∧
    (List.Pairwise (fun a b => winsD b ≤ winsD a) (sortTeamsByWins cexRatingTeams) ∧
     (playInSeeds (simulatePlayInTournament cexRatingTeams (fun _ => 1 / 2) 0)).take 6 =
       (sortTeamsByWins cexRatingTeams).take 6 ∧
     (playInSeeds (simulatePlayInTournament cexRatingTeams (fun _ => 1 / 2) 0)).getD 6 default ∈
       [(sortTeamsByWins cexRatingTeams).getD 6 default,
        (sortTeamsByWins cexRatingTeams).getD 7 default] ∧
     (playInSeeds (simulatePlayInTournament cexRatingTeams (fun _ => 1 / 2) 0)).getD 7 default ∈
       [(sortTeamsByWins cexRatingTeams).getD 6 default,
        (sortTeamsByWins cexRatingTeams).getD 7 default,
        (sortTeamsByWins cexRatingTeams).getD 8 default,
        (sortTeamsByWins cexRatingTeams).getD 9 default]) :=
  ⟨by decide, playin_seeding_by_wins cexRatingTeams (fun _ => 1 / 2) 0 (by decide)⟩

/-- C4 counterexample: the team with by far the highest weighted rating
(rating 100, every other team rating 1) is not made the 1-seed — the
seeds follow the win column instead. -/
theorem playin_ignores_rating :
    ((playInSeeds (simulatePlayInTournament cexRatingTeams
        (fun _ => 1 / 2) 0)).getD 0 default).name = "A" ∧
    ((playInSeeds (simulatePlayInTournament cexRatingTeams
        (fun _ => 1 / 2) 0)).getD 0 default).weightedRating = 1 ∧
    topRatedTeam ∈ cexRatingTeams ∧ (1 : ℚ) < topRatedTeam.weightedRating := by
  norm_num [simulatePlayInTournament, playInSeeds, sortTeamsByWins, insertTeamByWins,
    winsD, cexRatingTeams, topRatedTeam, simulateGame]



/-- C1 amended: for an 8-team conference bracket, the code runs exactly
3 rounds; round 1 pairs **adjacent** seeds (1v2, 3v4, 5v6, 7v8), and each
later round consumes exactly the winners of the previous round, again
paired adjacently; the champion is the winner of the single round-3
series. -/
theorem bracket_adjacent_pairing (name : String) (a b c d e f g h : TeamSimulationResult)
    (luck hca : Bool) (rand : Nat → ℚ) (k : Nat) :
    ∃ cr k',
      simulateConferencePlayoffs name [a, b, c, d, e, f, g, h] luck hca rand k =
        .ok (cr, k') ∧
      cr.rounds.map RoundResult.round = [1, 2, 3] ∧
      ∃ s1 s2 s3 s4 s5 s6 s7,
        cr.rounds.map RoundResult.series = [[s1, s2, s3, s4], [s5, s6], [s7]] ∧
        s1.team1 = a ∧ s1.team2 = b ∧ s2.team1 = c ∧ s2.team2 = d ∧
        s3.team1 = e ∧ s3.team2 = f ∧ s4.team1 = g ∧ s4.team2 = h ∧
        s5.team1 = s1.winner ∧ s5.team2 = s2.winner ∧
        s6.team1 = s3.winner ∧ s6.team2 = s4.winner ∧
        s7.team1 = s5.winner ∧ s7.team2 = s6.winner ∧
        cr.champion = s7.winner := by
  rw [simulateConferencePlayoffs, if_neg (by simp)]
  simp only [simulateRoundsFrom, pairTeamsRound]
  refine ⟨_, _, rfl, rfl, _, _, _, _, _, _, _, rfl, ?_⟩
  refine ⟨simulateSeries_team1 .., simulateSeries_team2 .., simulateSeries_team1 ..,
    simulateSeries_team2 .., simulateSeries_team1 .., simulateSeries_team2 ..,
    simulateSeries_team1 .., simulateSeries_team2 .., simulateSeries_team1 ..,
    simulateSeries_team2 .., simulateSeries_team1 .., simulateSeries_team2 ..,
    simulateSeries_team1 .., simulateSeries_team2 .., rfl⟩



/-- C1 counterexample: in round 1 the opponent of the team at seed
position 1 is the seed-2 team ("T2"), not the seed-8 team ("T8") that the
mirror pairing i v (count-1-i) would demand. -/
theorem bracket_pairs_adjacent_not_mirror :
    (seriesAt (confRounds (simulateConferencePlayoffs "Eastern" cexBracketTeams false false
        (fun _ => 1 / 2) 0)) 0 0).team2.name = "T2" ∧
    (cexBracketTeams.getD 7 default).name = "T8" ∧
    ("T2" : String) ≠ "T8" := by
  refine ⟨?_, by simp [cexBracketTeams], by decide⟩
  simp only [cexBracketTeams]
  rw [simulateConferencePlayoffs, if_neg (by simp)]
  simp only [simulateRoundsFrom, pairTeamsRound, confRounds, seriesAt,
    List.getD_cons_zero]
  rw [simulateSeries_team2]



/-- C2 (bug exhibit): with `useHomeCourtAdvantage = false` team1 is never
"home" (first conjunct), yet team2's effective rating still receives the
0.03 bonus in every game (second conjunct), so with equal ratings 1/2 and
every draw fixed at 0.49 team B sweeps the series (third conjunct) even
though 0.49 is below the unbiased win chance 1/2 that team A would have
had if, per the claim, no bonus were applied to either side (fourth
conjunct). -/
theorem hca_off_still_biases_team2 :
    seriesTeam1Home false 1 = false ∧
    seriesTeam2Eff halfTeamB 0 (seriesTeam1Home false 1) =
      halfTeamB.weightedRating + 3 / 100 ∧
    (simulateSeries halfTeamA halfTeamB false false (fun _ => 49 / 100) 0).1.winner =
      halfTeamB ∧
    (49 / 100 : ℚ) <
      halfTeamA.weightedRating / (halfTeamA.weightedRating + halfTeamB.weightedRating) := by
  refine ⟨rfl, by norm_num [seriesTeam2Eff, seriesTeam1Home, halfTeamB], ?_,
    by norm_num [halfTeamA, halfTeamB]⟩
  simp [simulateSeries, simulateSeriesLoop, halfTeamA, halfTeamB, seriesTeam1Home,
    seriesLuckFactor, seriesTeam1Eff, seriesTeam2Eff]
  norm_num

end NBASim
